import Mathlib

/-!
# Canvas-Implementation: element store, history manager, command layer

A shallow embedding of the state and operations of `src/App.tsx` (the `App`
component): the element collection, the selection, the snapshot history with
its cursor, and the public operations `addElement`, `updateElement`,
`deleteElement`, `duplicateElement`, `handleUndo`, `handleRedo`.

Modelling conventions:
* React `useState` cells become fields of an explicit `AppState` record; each
  handler becomes a function `AppState → AppState` (all `setX` calls of one
  handler applied together, which matches React's batched synchronous
  semantics for these handlers).
* `generateId` (`Math.random().toString(36).substr(2, 9)`) produces an opaque
  fresh identifier; we model the generator as a counter `nextId` threaded
  through the state, so ids are `Nat`.
* JavaScript numbers are modelled as `Int`: every numeric value the component
  manipulates (200, 300, 100, 0, 1, `+ 20`, `length + 1`) is an exact small
  integer, where float64 arithmetic coincides with integer arithmetic.
* A TypeScript optional/partial field becomes an `Option`; the JS truthiness
  test `!payload.backgroundColor` on a string-valued field is false exactly
  when the field is absent or the empty string, captured by `strFalsy`.
* `window.confirm` is an external boolean input; undo/redo take it as a
  parameter `confirm`.
* On mount, the component runs `addToHistory([])` from `history = []`,
  `historyIndex = -1`, producing `history = [[]]`, `historyIndex = 0`.
  `initState` is that post-mount state, with the cursor a `Nat` (it never goes
  below 0 afterwards: `handleUndo` is guarded by `historyIndex > 0`).
-/

/-- Modelled from the spec: the element `type` variant tag of `types.ts`
(not under `src/`); §3 of the spec lists { text, shape, image, … }. -/
inductive ElementType where
  | text
  | shape
  | image
deriving DecidableEq, Repr

/-- Modelled from the spec: the shape-kind enumeration of `types.ts` (not
under `src/`); the code uses `ShapeType.RECTANGLE`, and the spec's §3
`shapeType` attribute is open-ended, so at least one further kind exists. -/
inductive ShapeType where
  | rectangle
  | circle
deriving DecidableEq, Repr

/-- Modelled from the spec and from the fields `App.tsx` reads and writes:
the `CanvasElement` record of `types.ts` (not under `src/`).  Fields used by
the command layer: `id`, `type`, geometry `x, y, width, height, rotation`,
`zIndex`, `opacity`, and the optional style fields `backgroundColor`,
`shapeType`, `color`, `content`. -/
structure CanvasElement where
  id : Nat
  type : ElementType
  x : Int
  y : Int
  width : Int
  height : Int
  rotation : Int
  zIndex : Int
  opacity : Int
  backgroundColor : Option String
  shapeType : Option ShapeType
  color : Option String
  content : Option String
deriving DecidableEq, Repr

/-- A payload passed to `addElement` (`payload: any = {}` in the source): any
subset of the element fields other than `id` and `type` (which `addElement`
itself supplies). Absent fields are `none`. -/
structure Payload where
  x : Option Int := none
  y : Option Int := none
  width : Option Int := none
  height : Option Int := none
  rotation : Option Int := none
  zIndex : Option Int := none
  opacity : Option Int := none
  backgroundColor : Option String := none
  shapeType : Option ShapeType := none
  color : Option String := none
  content : Option String := none
deriving DecidableEq, Repr

/-- A `Partial<CanvasElement>` passed to `updateElement`: any subset of the
element fields, including `id` and `type`. -/
structure ElementUpdate where
  id : Option Nat := none
  type : Option ElementType := none
  x : Option Int := none
  y : Option Int := none
  width : Option Int := none
  height : Option Int := none
  rotation : Option Int := none
  zIndex : Option Int := none
  opacity : Option Int := none
  backgroundColor : Option (Option String) := none
  shapeType : Option (Option ShapeType) := none
  color : Option (Option String) := none
  content : Option (Option String) := none
deriving DecidableEq, Repr

/-- JS truthiness of an optional string: `!payload.field` holds exactly when
the field is absent or the empty string. -/
def strFalsy : Option String → Bool
  | none => true
  | some s => s = ""

/-- The state held by the `App` component: the four `useState` cells the
command layer touches, plus the id-generator counter. -/
structure AppState where
  elements : List CanvasElement
  selectedId : Option Nat
  history : List (List CanvasElement)
  historyIndex : Nat
  nextId : Nat
deriving DecidableEq, Repr

/-- The post-mount state: the mount effect has committed the empty snapshot
(`history = [[]]`, `historyIndex = 0`), no elements, no selection. -/
def initState : AppState :=
  { elements := [], selectedId := none, history := [[]], historyIndex := 0,
    nextId := 0 }

/-- Source `addToHistory(newElements)`: truncate the history to the cursor
(inclusive), append the snapshot, move the cursor to the new last index.
The caller updates `elements` itself. -/
def addToHistory (s : AppState) (newElements : List CanvasElement) : AppState :=
  let newHistory := s.history.take (s.historyIndex + 1) ++ [newElements]
  { s with history := newHistory, historyIndex := newHistory.length - 1 }

/-- Source `handleUndo`: guarded by `historyIndex > 0`; when more than one snapshot
exists the external confirmation must be granted; then the cursor moves back
one and the store is replaced by the snapshot now at the cursor. -/
def handleUndo (confirm : Bool) (s : AppState) : AppState :=
  if 0 < s.historyIndex then
    if 1 < s.history.length ∧ confirm = false then s
    else
      { s with historyIndex := s.historyIndex - 1,
               elements := s.history.getD (s.historyIndex - 1) [] }
  else s

/-- Source `handleRedo`: guarded by `historyIndex < history.length - 1` (written
cursor + 1 < length, which is the same inequality over the integers); same
confirmation gate; then the cursor moves forward one and the store is
replaced by the snapshot now at the cursor. -/
def handleRedo (confirm : Bool) (s : AppState) : AppState :=
  if s.historyIndex + 1 < s.history.length then
    if 1 < s.history.length ∧ confirm = false then s
    else
      { s with historyIndex := s.historyIndex + 1,
               elements := s.history.getD (s.historyIndex + 1) [] }
  else s

/-- The element literal built by `addElement` before the type-specific
default block: generated id, positional defaults overlaid by the payload
(`{...defaults, ...payload}`). -/
def baseElement (t : ElementType) (payload : Payload) (s : AppState) :
    CanvasElement :=
  { id := s.nextId
    type := t
    x := payload.x.getD 200
    y := payload.y.getD 200
    width := payload.width.getD (if t = ElementType.text then 300 else 200)
    height := payload.height.getD (if t = ElementType.text then 100 else 200)
    rotation := payload.rotation.getD 0
    zIndex := payload.zIndex.getD ((s.elements.length : Int) + 1)
    opacity := payload.opacity.getD 1
    backgroundColor := payload.backgroundColor
    shapeType := payload.shapeType
    color := payload.color
    content := payload.content }

/-- The element `addElement` creates: the base literal, then the two
type-specific default blocks, which run after the payload overlay and are
gated on JS truthiness of `payload.backgroundColor` / `payload.color`. -/
def newElementOf (t : ElementType) (payload : Payload) (s : AppState) :
    CanvasElement :=
  let e := baseElement t payload s
  let e :=
    if t = ElementType.shape ∧ strFalsy payload.backgroundColor then
      { e with backgroundColor := some "#94a3b8",
               shapeType := some ShapeType.rectangle }
    else e
  if t = ElementType.text ∧ strFalsy payload.color then
    { e with color := some "#1e293b" }
  else e

/-- Source `addElement(type, payload)`: append the new element, commit the new
collection to history, select the new element, and advance the id counter. -/
def addElement (t : ElementType) (payload : Payload) (s : AppState) :
    AppState :=
  let newElement := newElementOf t payload s
  let newElements := s.elements ++ [newElement]
  let s' := addToHistory { s with elements := newElements } newElements
  { s' with selectedId := some newElement.id, nextId := s.nextId + 1 }

/-- Merging `Partial<CanvasElement>` updates into an element:
`{ ...el, ...updates }`. -/
def applyUpdate (el : CanvasElement) (u : ElementUpdate) : CanvasElement :=
  { id := u.id.getD el.id
    type := u.type.getD el.type
    x := u.x.getD el.x
    y := u.y.getD el.y
    width := u.width.getD el.width
    height := u.height.getD el.height
    rotation := u.rotation.getD el.rotation
    zIndex := u.zIndex.getD el.zIndex
    opacity := u.opacity.getD el.opacity
    backgroundColor := u.backgroundColor.getD el.backgroundColor
    shapeType := u.shapeType.getD el.shapeType
    color := u.color.getD el.color
    content := u.content.getD el.content }

/-- Source `updateElement(id, updates)`: map the merge over the collection; no
history commit, no selection change. -/
def updateElement (id : Nat) (u : ElementUpdate) (s : AppState) : AppState :=
  { s with elements :=
      s.elements.map (fun el => if el.id = id then applyUpdate el u else el) }

/-- Source `deleteElement(id?)`: the target defaults to the current selection; when
a (truthy) target exists, filter it out, commit, and clear the selection if
the target was the selected id. -/
def deleteElement (idArg : Option Nat) (s : AppState) : AppState :=
  match idArg.orElse (fun _ => s.selectedId) with
  | none => s
  | some targetId =>
      let newElements := s.elements.filter (fun el => el.id != targetId)
      let s' := addToHistory { s with elements := newElements } newElements
      if some targetId = s.selectedId then { s' with selectedId := none }
      else s'

/-- Source `duplicateElement(id)`: when the id is found, append a copy with a fresh
id, `x + 20`, `y + 20`, `zIndex = elements.length + 1`, commit, and select
the copy; otherwise do nothing. -/
def duplicateElement (id : Nat) (s : AppState) : AppState :=
  match s.elements.find? (fun el => el.id = id) with
  | none => s
  | some elementToCopy =>
      let newElement :=
        { elementToCopy with
            id := s.nextId
            x := elementToCopy.x + 20
            y := elementToCopy.y + 20
            zIndex := (s.elements.length : Int) + 1 }
      let newElements := s.elements ++ [newElement]
      let s' := addToHistory
        { s with elements := newElements, nextId := s.nextId + 1 } newElements
      { s' with selectedId := some newElement.id }

/-- A public operation of the command layer; undo/redo carry the answer the
external confirmation dialog would give. -/
inductive Op where
  | add (t : ElementType) (payload : Payload)
  | update (id : Nat) (u : ElementUpdate)
  | delete (idArg : Option Nat)
  | dup (id : Nat)
  | undo (confirm : Bool)
  | redo (confirm : Bool)
deriving DecidableEq, Repr

/-- Apply one public operation. -/
def applyOp (op : Op) (s : AppState) : AppState :=
  match op with
  | Op.add t p => addElement t p s
  | Op.update id u => updateElement id u s
  | Op.delete idArg => deleteElement idArg s
  | Op.dup id => duplicateElement id s
  | Op.undo c => handleUndo c s
  | Op.redo c => handleRedo c s

/-- Run a sequence of operations from a given state. -/
def runFrom (s : AppState) : List Op → AppState
  | [] => s
  | op :: ops => runFrom (applyOp op s) ops

/-- Run a sequence of operations from the post-mount state. -/
def run (ops : List Op) : AppState :=
  runFrom initState ops

/-- Is the operation a transient `updateElement`? -/
def Op.isUpdate : Op → Bool
  | Op.update _ _ => true
  | _ => false

/-- Does the operation perform a history commit (a call to `addToHistory`)
when applied in state `s`?  `add` always commits; `delete` commits exactly
when a target resolves; `dup` commits exactly when the id is found; `update`,
`undo` and `redo` never commit. -/
def Op.commits : Op → AppState → Bool
  | Op.add _ _, _ => true
  | Op.update _ _, _ => false
  | Op.delete idArg, s => (idArg.orElse (fun _ => s.selectedId)).isSome
  | Op.dup id, s => (s.elements.find? (fun el => el.id = id)).isSome
  | Op.undo _, _ => false
  | Op.redo _, _ => false

/-- Every operation of the list performs a history commit in the state in
which it is applied. -/
def AllCommit : AppState → List Op → Prop
  | _, [] => True
  | s, op :: ops => op.commits s = true ∧ AllCommit (applyOp op s) ops

/-! ## History invariants -/

/-- Bounds part of the history invariant: `0 ≤ index < length` (the lower
bound is by the `Nat` cursor). -/
def HBounds (s : AppState) : Prop :=
  s.historyIndex < s.history.length

/-- Synchrony part of the history invariant: the snapshot at the cursor is
the current element collection. -/
def HSync (s : AppState) : Prop :=
  s.history[s.historyIndex]? = some s.elements

theorem addToHistory_history (s : AppState) (xs : List CanvasElement) :
    (addToHistory s xs).history =
      s.history.take (s.historyIndex + 1) ++ [xs] := rfl

theorem addToHistory_historyIndex (s : AppState) (xs : List CanvasElement) :
    (addToHistory s xs).historyIndex =
      (s.history.take (s.historyIndex + 1)).length := by
  show (s.history.take (s.historyIndex + 1) ++ [xs]).length - 1 = _
  simp

theorem addToHistory_bounds (s : AppState) (xs : List CanvasElement) :
    HBounds (addToHistory s xs) := by
  show (addToHistory s xs).historyIndex < (addToHistory s xs).history.length
  rw [addToHistory_historyIndex, addToHistory_history]
  simp

theorem concat_last {α : Type} (l : List α) (a : α) :
    (l ++ [a])[(l ++ [a]).length - 1]? = some a := by
  have h : (l ++ [a]).length - 1 = l.length := by simp
  rw [h]
  exact List.getElem?_concat_length l a

theorem addToHistory_get (s : AppState) (xs : List CanvasElement) :
    (addToHistory s xs).history[(addToHistory s xs).historyIndex]? =
      some xs := by
  rw [addToHistory_historyIndex, addToHistory_history]
  exact List.getElem?_concat_length _ _

theorem addElement_elements (t : ElementType) (p : Payload) (s : AppState) :
    (addElement t p s).elements = s.elements ++ [newElementOf t p s] := rfl


theorem applyOp_bounds (op : Op) (s : AppState) (h : HBounds s) :
    HBounds (applyOp op s) := by
  unfold HBounds at h ⊢
  cases op with
  | add t p =>
      simp [applyOp, addElement, addToHistory]
  | update id u => exact h
  | delete idArg =>
      simp only [applyOp]
      unfold deleteElement
      split
      · exact h
      · split <;> simp [addToHistory]
  | dup id =>
      simp only [applyOp]
      unfold duplicateElement
      split
      · exact h
      · simp [addToHistory]
  | undo c =>
      simp only [applyOp]
      unfold handleUndo
      split
      · split
        · exact h
        · simp only
          omega
      · exact h
  | redo c =>
      simp only [applyOp]
      unfold handleRedo
      split
      · split
        · exact h
        · simp only
          omega
      · exact h

theorem applyOp_sync (op : Op) (s : AppState) (hb : HBounds s) (hs : HSync s)
    (hnu : op.isUpdate = false) : HSync (applyOp op s) := by
  unfold HBounds at hb
  unfold HSync at hs ⊢
  cases op with
  | add t p =>
      dsimp only [applyOp, addElement, addToHistory]
      exact concat_last _ _
  | update id u => exact absurd hnu (by simp [Op.isUpdate])
  | delete idArg =>
      dsimp only [applyOp]
      unfold deleteElement
      split
      · exact hs
      · split <;>
          · dsimp only [addToHistory]
            exact concat_last _ _
  | dup id =>
      dsimp only [applyOp]
      unfold duplicateElement
      split
      · exact hs
      · dsimp only [addToHistory]
        exact concat_last _ _
  | undo c =>
      dsimp only [applyOp]
      unfold handleUndo
      split
      · split
        · exact hs
        · dsimp only
          have hlt : s.historyIndex - 1 < s.history.length := by omega
          rw [List.getD_eq_getElem?_getD, List.getElem?_eq_getElem hlt]
          simp
      · exact hs
  | redo c =>
      dsimp only [applyOp]
      unfold handleRedo
      split
      · split
        · exact hs
        · dsimp only
          have hlt : s.historyIndex + 1 < s.history.length := by omega
          rw [List.getD_eq_getElem?_getD, List.getElem?_eq_getElem hlt]
          simp
      · exact hs

theorem runFrom_bounds (ops : List Op) (s : AppState) (h : HBounds s) :
    HBounds (runFrom s ops) := by
  induction ops generalizing s with
  | nil => exact h
  | cons op ops ih => exact ih _ (applyOp_bounds op s h)

theorem runFrom_sync (ops : List Op) (s : AppState) (hb : HBounds s)
    (hs : HSync s) (hnu : ∀ op ∈ ops, op.isUpdate = false) :
    HSync (runFrom s ops) := by
  induction ops generalizing s with
  | nil => exact hs
  | cons op ops ih =>
      exact ih _ (applyOp_bounds op s hb)
        (applyOp_sync op s hb hs (hnu op (by simp)))
        (fun o ho => hnu o (by simp [ho]))

theorem initState_bounds : HBounds initState := by
  unfold HBounds initState
  simp

theorem initState_sync : HSync initState := by
  unfold HSync initState
  rfl

/-! ## Claim C1 -/

/-- C1 (counterexample): the history invariant does NOT hold immediately
after an `updateElement` call.  From the post-mount state, after
`addElement(shape, {})` followed by the transient
`updateElement(0, {x: 5})`, the snapshot at the cursor still holds the
element with `x = 200` while the store holds `x = 5`: the cursor snapshot
differs from the current element collection. -/
theorem C1_history_invariant_cex :
    (run [Op.add ElementType.shape {}, Op.update 0 { x := some 5 }]).history[
        (run [Op.add ElementType.shape {}, Op.update 0 { x := some 5 }]).historyIndex]? ≠
      some (run [Op.add ElementType.shape {}, Op.update 0 { x := some 5 }]).elements := by
  decide

/-- Any operation that performs a history commit (a call to `addToHistory`)
re-establishes snapshot synchrony unconditionally — in particular even when
a transient `updateElement` had broken it: the commit appends the current
collection and moves the cursor onto it. -/
theorem applyOp_commits_sync (op : Op) (s : AppState)
    (hc : op.commits s = true) :
    (applyOp op s).history[(applyOp op s).historyIndex]? =
      some (applyOp op s).elements := by
  cases op with
  | add t p =>
      dsimp only [applyOp, addElement, addToHistory]
      exact concat_last _ _
  | update eid u => simp [Op.commits] at hc
  | delete idArg =>
      dsimp only [applyOp]
      unfold deleteElement
      split
      · next heq =>
          simp only [Op.commits, heq] at hc
          simp at hc
      · split <;>
          · dsimp only [addToHistory]
            exact concat_last _ _
  | dup eid =>
      dsimp only [applyOp]
      unfold duplicateElement
      split
      · next heq =>
          simp only [Op.commits, heq] at hc
          simp at hc
      · dsimp only [addToHistory]
        exact concat_last _ _
  | undo c => simp [Op.commits] at hc
  | redo c => simp [Op.commits] at hc

/-- C1 (amended): the bounds part of the invariant (`0 ≤ index < length`,
the lower bound by the `Nat` cursor) holds in every state reachable by
public operations — transient updates included; the snapshot at the cursor
equals the current element collection at startup, and again immediately
after every operation that performs a history commit (add; delete with a
resolved target; duplicate of a present id), performed from any reachable
state — even one in which a transient `updateElement` has left the cursor
snapshot out of sync, which persists only until that next commit. -/
theorem C1_history_invariant (ops : List Op) (op : Op)
    (hc : op.commits (run ops) = true) :
    initState.history[initState.historyIndex]? = some initState.elements ∧
    (run ops).historyIndex < (run ops).history.length ∧
    (applyOp op (run ops)).historyIndex <
      (applyOp op (run ops)).history.length ∧
    (applyOp op (run ops)).history[(applyOp op (run ops)).historyIndex]? =
      some (applyOp op (run ops)).elements :=
  ⟨initState_sync,
   runFrom_bounds ops initState initState_bounds,
   applyOp_bounds op (run ops) (runFrom_bounds ops initState initState_bounds),
   applyOp_commits_sync op (run ops) hc⟩

/-- C1 witness: a commit (a second add) performed right after a transient
`updateElement` — which had desynchronised the cursor snapshot — restores
the invariant: the new cursor snapshot equals the store. -/
theorem C1_history_invariant_wit :
    Op.commits (Op.add ElementType.text {})
      (run [Op.add ElementType.shape {}, Op.update 0 { x := some 5 }]) =
        true ∧
    (applyOp (Op.add ElementType.text {})
        (run [Op.add ElementType.shape {},
              Op.update 0 { x := some 5 }])).history[
      (applyOp (Op.add ElementType.text {})
        (run [Op.add ElementType.shape {},
              Op.update 0 { x := some 5 }])).historyIndex]? =
      some (applyOp (Op.add ElementType.text {})
        (run [Op.add ElementType.shape {},
              Op.update 0 { x := some 5 }])).elements :=
  ⟨rfl,
   (C1_history_invariant
      [Op.add ElementType.shape {}, Op.update 0 { x := some 5 }]
      (Op.add ElementType.text {}) rfl).2.2.2⟩

/-! ## Claim C2 -/

/-- Reduction of `deleteElement` at an explicitly supplied id: the target
resolves to that id. -/
theorem deleteElement_some (eid : Nat) (s : AppState) :
    deleteElement (some eid) s =
      (let newElements := s.elements.filter (fun el => el.id != eid)
       let s' := addToHistory { s with elements := newElements } newElements
       if some eid = s.selectedId then { s' with selectedId := none }
       else s') := rfl

/-- C2 (counterexample): with one element (id 0) in the store, id 99 is
unknown, yet `deleteElement(99)` is not a no-op: it appends a (duplicate)
snapshot to the history. -/
theorem C2_unknown_id_cex :
    (∀ e ∈ (run [Op.add ElementType.shape {}]).elements, e.id ≠ 99) ∧
    (deleteElement (some 99) (run [Op.add ElementType.shape {}])).history ≠
      (run [Op.add ElementType.shape {}]).history := by
  decide

/-- C2 (amended): for an id not in the store, `updateElement` and
`duplicateElement` are complete no-ops, while `deleteElement` leaves the
element collection unchanged but still commits: it truncates the redo tail,
appends a duplicate snapshot, moves the cursor to the new end, and clears
the selection only if the unknown id happens to equal the (then necessarily
dangling) selected id. -/
theorem C2_unknown_id (s : AppState) (eid : Nat) (u : ElementUpdate)
    (h : ∀ e ∈ s.elements, e.id ≠ eid) :
    updateElement eid u s = s ∧
    duplicateElement eid s = s ∧
    (deleteElement (some eid) s).elements = s.elements ∧
    (deleteElement (some eid) s).history =
      s.history.take (s.historyIndex + 1) ++ [s.elements] ∧
    (deleteElement (some eid) s).historyIndex =
      (s.history.take (s.historyIndex + 1)).length ∧
    (deleteElement (some eid) s).selectedId =
      (if some eid = s.selectedId then none else s.selectedId) := by
  have hfilt : s.elements.filter (fun el => el.id != eid) = s.elements :=
    List.filter_eq_self.mpr (fun a ha => by simp [h a ha])
  refine ⟨?_, ?_, ?_, ?_, ?_, ?_⟩
  · unfold updateElement
    have h2 : s.elements.map (fun el => if el.id = eid then applyUpdate el u else el) =
        s.elements.map id :=
      List.map_congr_left (fun a ha => by simp [h a ha])
    rw [h2, List.map_id]
  · unfold duplicateElement
    have hfind : s.elements.find? (fun el => el.id = eid) = none :=
      List.find?_eq_none.mpr (fun x hx => by simp [h x hx])
    rw [hfind]
  · rw [deleteElement_some]
    split <;> · dsimp only [addToHistory]; exact hfilt
  · rw [deleteElement_some]
    split <;> · dsimp only [addToHistory]; rw [hfilt]
  · rw [deleteElement_some]
    split <;> · dsimp only [addToHistory]; rw [hfilt]; simp
  · rw [deleteElement_some]
    split
    · next hc => simp [hc]
    · next hc => simp [hc, addToHistory]

/-- C2 witness: the amended statement at the concrete store holding one
element of id 0, with unknown id 99. -/
theorem C2_unknown_id_wit :
    (∀ e ∈ (run [Op.add ElementType.shape {}]).elements, e.id ≠ 99) ∧
    updateElement 99 {} (run [Op.add ElementType.shape {}]) =
      run [Op.add ElementType.shape {}] ∧
    duplicateElement 99 (run [Op.add ElementType.shape {}]) =
      run [Op.add ElementType.shape {}] :=
  ⟨by decide,
   (C2_unknown_id (run [Op.add ElementType.shape {}]) 99 {} (by decide)).1,
   (C2_unknown_id (run [Op.add ElementType.shape {}]) 99 {} (by decide)).2.1⟩

/-! ## Claim C3 -/

/-- C3 (counterexample): the shape defaults are keyed on
`payload.backgroundColor` alone and run after the payload overlay, so they
DO override explicitly given payload fields: a payload carrying
`shapeType = circle` (and no `backgroundColor`) produces an element whose
`shapeType` is `rectangle`, and a payload carrying the explicit (falsy)
value `backgroundColor = ""` produces `backgroundColor = "#94a3b8"`. -/
theorem C3_add_defaults_cex :
    (addElement ElementType.shape { shapeType := some ShapeType.circle }
        initState).elements.map (fun e => e.shapeType) =
      [some ShapeType.rectangle] ∧
    (addElement ElementType.shape { backgroundColor := some "" }
        initState).elements.map (fun e => e.backgroundColor) =
      [some "#94a3b8"] := by
  decide

/-- C3 (amended): `addElement` appends exactly one element; its
`backgroundColor` and `shapeType` are both replaced by the shape defaults
exactly when the type is shape and `payload.backgroundColor` is JS-falsy
(absent or the empty string) — overriding any payload `shapeType` — and its
`color` is replaced by the text default exactly when the type is text and
`payload.color` is JS-falsy; otherwise each of these fields keeps its
payload value. -/
theorem C3_add_defaults (t : ElementType) (p : Payload) (s : AppState) :
    (addElement t p s).elements = s.elements ++ [newElementOf t p s] ∧
    (newElementOf t p s).backgroundColor =
      (if t = ElementType.shape ∧ strFalsy p.backgroundColor then
        some "#94a3b8" else p.backgroundColor) ∧
    (newElementOf t p s).shapeType =
      (if t = ElementType.shape ∧ strFalsy p.backgroundColor then
        some ShapeType.rectangle else p.shapeType) ∧
    (newElementOf t p s).color =
      (if t = ElementType.text ∧ strFalsy p.color then
        some "#1e293b" else p.color) := by
  refine ⟨rfl, ?_, ?_, ?_⟩ <;>
    · unfold newElementOf baseElement
      split_ifs <;> simp_all

/-! ## Claim C4 -/

/-- C4 (counterexample): after `addElement(shape, {})` the new element
(id 0) is selected; a confirmed `undo()` restores the empty collection but
leaves the selection at id 0 — a non-null selection referencing an id not
present in the store, which the claim says must have been cleared. -/
theorem C4_selection_cex :
    (run [Op.add ElementType.shape {}, Op.undo true]).selectedId = some 0 ∧
    (run [Op.add ElementType.shape {}, Op.undo true]).elements = [] := by
  decide

/-- C4 (amended): `handleUndo` and `handleRedo` never modify the selection,
even when the restored snapshot lacks the selected id (the dangling
selection merely resolves to no element at lookup time); deleting the
selected id does clear the selection. -/
theorem C4_selection (s : AppState) (c : Bool) (i : Nat) :
    (handleUndo c s).selectedId = s.selectedId ∧
    (handleRedo c s).selectedId = s.selectedId ∧
    (s.selectedId = some i → (deleteElement (some i) s).selectedId = none) := by
  refine ⟨?_, ?_, ?_⟩
  · unfold handleUndo
    split
    · split <;> rfl
    · rfl
  · unfold handleRedo
    split
    · split <;> rfl
    · rfl
  · intro hsel
    rw [deleteElement_some]
    simp [hsel]

/-- C4 witness: the amended statement at the one-element store, with the
selected id 0 deleted. -/
theorem C4_selection_wit :
    (handleUndo true (run [Op.add ElementType.shape {}])).selectedId =
      (run [Op.add ElementType.shape {}]).selectedId ∧
    (deleteElement (some 0) (run [Op.add ElementType.shape {}])).selectedId =
      none :=
  ⟨(C4_selection (run [Op.add ElementType.shape {}]) true 0).1,
   (C4_selection (run [Op.add ElementType.shape {}]) true 0).2.2 (by decide)⟩

/-! ## Claim C5 -/

/-- C5 (counterexample): after `addElement(shape, {})` and a transient
`updateElement(0, {x: 999})`, undo is enabled, but a confirmed undo followed
by a confirmed redo yields the committed snapshot (`x = 200`), not the
pre-undo collection (`x = 999`): the transient update is lost. -/
theorem C5_undo_redo_cex :
    0 < (run [Op.add ElementType.shape {},
              Op.update 0 { x := some 999 }]).historyIndex ∧
    (handleRedo true (handleUndo true
        (run [Op.add ElementType.shape {},
              Op.update 0 { x := some 999 }]))).elements ≠
      (run [Op.add ElementType.shape {},
            Op.update 0 { x := some 999 }]).elements := by
  decide

/-- C5 (amended): whenever undo is enabled and the state satisfies the
snapshot-synchrony invariant (the cursor snapshot equals the store, i.e. no
transient `updateElement` is pending since the last commit), a confirmed
undo followed by a confirmed redo restores both the element collection and
the cursor exactly. -/
theorem C5_undo_redo (s : AppState) (h0 : 0 < s.historyIndex)
    (hb : s.historyIndex < s.history.length)
    (hs : s.history[s.historyIndex]? = some s.elements) :
    (handleRedo true (handleUndo true s)).elements = s.elements ∧
    (handleRedo true (handleUndo true s)).historyIndex = s.historyIndex := by
  have hgd : s.history.getD s.historyIndex [] = s.elements := by
    rw [List.getD_eq_getElem?_getD, hs]
    rfl
  unfold handleUndo
  rw [if_pos h0, if_neg (by simp)]
  unfold handleRedo
  dsimp only
  have hidx : s.historyIndex - 1 + 1 = s.historyIndex := by omega
  rw [hidx, if_pos hb, if_neg (by simp), hgd]
  exact ⟨rfl, rfl⟩

/-- C5 witness: the amended round trip at the concrete post-add state. -/
theorem C5_undo_redo_wit :
    (handleRedo true (handleUndo true
        (run [Op.add ElementType.shape {}]))).elements =
      (run [Op.add ElementType.shape {}]).elements :=
  (C5_undo_redo (run [Op.add ElementType.shape {}])
    (by decide) (by decide) (by decide)).1

/-! ## Claim C6 -/

/-- The cursor sits at the last history entry. -/
def AtTop (s : AppState) : Prop :=
  s.historyIndex + 1 = s.history.length

theorem addToHistory_top (s : AppState) (xs : List CanvasElement)
    (ht : s.historyIndex + 1 = s.history.length) :
    (addToHistory s xs).historyIndex + 1 = (addToHistory s xs).history.length ∧
    (addToHistory s xs).history.length = s.history.length + 1 := by
  have htake : s.history.take (s.historyIndex + 1) = s.history := by
    rw [ht]
    exact List.take_length _
  rw [addToHistory_historyIndex, addToHistory_history, htake]
  simp

theorem commit_step (op : Op) (s : AppState) (hc : op.commits s = true)
    (ht : AtTop s) :
    AtTop (applyOp op s) ∧
    (applyOp op s).history.length = s.history.length + 1 := by
  unfold AtTop at ht ⊢
  cases op with
  | add t p =>
      dsimp only [applyOp, addElement]
      exact addToHistory_top _ _ ht
  | update eid u => simp [Op.commits] at hc
  | delete idArg =>
      dsimp only [applyOp]
      unfold deleteElement
      cases hmatch : idArg.orElse (fun _ => s.selectedId) with
      | none => rw [Op.commits, hmatch] at hc; simp at hc
      | some targetId =>
          dsimp only
          split <;> exact addToHistory_top _ _ ht
  | dup eid =>
      dsimp only [applyOp]
      unfold duplicateElement
      cases hmatch : s.elements.find? (fun el => el.id = eid) with
      | none => rw [Op.commits, hmatch] at hc; simp at hc
      | some el =>
          dsimp only
          exact addToHistory_top _ _ ht
  | undo c => simp [Op.commits] at hc
  | redo c => simp [Op.commits] at hc

theorem runFrom_commits (ops : List Op) (s : AppState)
    (ht : AtTop s) (hall : AllCommit s ops) :
    (runFrom s ops).history.length = s.history.length + ops.length := by
  induction ops generalizing s with
  | nil => rfl
  | cons op ops ih =>
      obtain ⟨hc, hrest⟩ := hall
      obtain ⟨ht2, hlen⟩ := commit_step op s hc ht
      have hrec := ih (applyOp op s) ht2 hrest
      show (runFrom (applyOp op s) ops).history.length = _
      rw [hrec, hlen]
      simp
      omega

/-- C6 (counterexample): `addElement(shape, {})` followed by a confirmed
`undo()` is a sequence of two committing operations (per the spec's
classification, which counts undo among them), yet the history length is 2,
not 3: undo relocates the cursor without adding an entry. -/
theorem C6_history_length_cex :
    (run [Op.add ElementType.shape {}, Op.undo true]).history.length ≠
      2 + 1 := by
  decide

/-- C6 (amended): for every sequence of N operations each of which actually
performs a history commit (add always; delete when a target resolves;
duplicate when the id is found; update, undo and redo never commit), the
history length afterwards is N + 1, counting the seeded initial empty
snapshot.  Undo and redo relocate the cursor without changing the length,
so the original count fails as soon as a sequence contains them. -/
theorem C6_history_length (ops : List Op) (h : AllCommit initState ops) :
    (run ops).history.length = ops.length + 1 := by
  show (runFrom initState ops).history.length = ops.length + 1
  rw [runFrom_commits ops initState rfl h]
  show 1 + ops.length = ops.length + 1
  omega

/-- C6 witness: three actually-committing operations (add, duplicate,
delete) yield history length 4. -/
theorem C6_history_length_wit :
    (run [Op.add ElementType.shape {}, Op.dup 0,
          Op.delete (some 0)]).history.length = 3 + 1 :=
  C6_history_length
    [Op.add ElementType.shape {}, Op.dup 0, Op.delete (some 0)]
    ⟨rfl, by decide, by decide, trivial⟩

/-! ## Claim C7 -/

/-- C7 (counterexample): with a single element whose `zIndex` is 5 (set via
the payload), `duplicateElement` gives the copy
`zIndex = elements.length + 1 = 2`, which is NOT the new maximum zIndex in
the store (the source still has 5). -/
theorem C7_duplicate_cex :
    ((run [Op.add ElementType.shape { zIndex := some 5 },
           Op.dup 0]).elements.map (fun e => e.zIndex)).foldr max 0 = 5 ∧
    ((run [Op.add ElementType.shape { zIndex := some 5 },
           Op.dup 0]).elements.getLast?).map (fun e => e.zIndex) =
      some 2 := by
  decide

/-- C7 (amended): for an id present in the store, `duplicateElement` appends
exactly one element equal to the source in every field except a freshly
generated id, `x + 20`, `y + 20`, and `zIndex = (number of elements before
the duplication) + 1` — which equals the new maximum zIndex only when every
existing zIndex is at most that count. -/
theorem C7_duplicate (s : AppState) (eid : Nat) (el : CanvasElement)
    (hfind : s.elements.find? (fun e => e.id = eid) = some el) :
    (duplicateElement eid s).elements =
      s.elements ++
        [{ el with id := s.nextId, x := el.x + 20, y := el.y + 20,
                   zIndex := (s.elements.length : Int) + 1 }] := by
  unfold duplicateElement
  rw [hfind]
  rfl

/-- C7 witness: duplicating the only element of a one-element store. -/
theorem C7_duplicate_wit :
    (duplicateElement 0
      { elements := [{ id := 0, type := ElementType.shape, x := 0, y := 0,
                       width := 3, height := 4, rotation := 5, zIndex := 6,
                       opacity := 7, backgroundColor := none,
                       shapeType := none, color := none, content := none }],
        selectedId := none, history := [[]], historyIndex := 0,
        nextId := 1 }).elements =
      [{ id := 0, type := ElementType.shape, x := 0, y := 0, width := 3,
         height := 4, rotation := 5, zIndex := 6, opacity := 7,
         backgroundColor := none, shapeType := none, color := none,
         content := none }] ++
      [{ id := 1, type := ElementType.shape, x := 0 + 20, y := 0 + 20,
         width := 3, height := 4, rotation := 5, zIndex := 2, opacity := 7,
         backgroundColor := none, shapeType := none, color := none,
         content := none }] :=
  C7_duplicate
    { elements := [{ id := 0, type := ElementType.shape, x := 0, y := 0,
                     width := 3, height := 4, rotation := 5, zIndex := 6,
                     opacity := 7, backgroundColor := none, shapeType := none,
                     color := none, content := none }],
      selectedId := none, history := [[]], historyIndex := 0, nextId := 1 }
    0
    { id := 0, type := ElementType.shape, x := 0, y := 0, width := 3,
      height := 4, rotation := 5, zIndex := 6, opacity := 7,
      backgroundColor := none, shapeType := none, color := none,
      content := none }
    (by decide)

/-! ## Claim C8 -/

/-- C8 (counterexample): `updateElement` merges arbitrary partial fields,
including `type`: updating the text element of id 0 with `{type: shape}`
changes its `type` from text to shape. -/
theorem C8_type_cex :
    (run [Op.add ElementType.text {}]).elements.map (fun e => e.type) =
      [ElementType.text] ∧
    (run [Op.add ElementType.text {},
          Op.update 0 { type := some ElementType.shape }]).elements.map
        (fun e => e.type) = [ElementType.shape] := by
  decide

/-- C8 (amended): `updateElement` preserves every element's `type` whenever
the partial update does not itself carry a `type` field; an update whose
payload includes `type` rewrites the matched element's `type`. -/
theorem C8_type_preserved (s : AppState) (eid : Nat) (u : ElementUpdate)
    (h : u.type = none) :
    (updateElement eid u s).elements.map (fun e => e.type) =
      s.elements.map (fun e => e.type) := by
  unfold updateElement
  dsimp only
  rw [List.map_map]
  apply List.map_congr_left
  intro a _
  by_cases hid : a.id = eid <;> simp [Function.comp, hid, applyUpdate, h]

/-- C8 witness: a type-free update on the one-element store preserves the
type list. -/
theorem C8_type_preserved_wit :
    ({ x := some 7 } : ElementUpdate).type = none ∧
    (updateElement 0 { x := some 7 }
        (run [Op.add ElementType.text {}])).elements.map (fun e => e.type) =
      (run [Op.add ElementType.text {}]).elements.map (fun e => e.type) :=
  ⟨rfl, C8_type_preserved (run [Op.add ElementType.text {}]) 0
    { x := some 7 } rfl⟩

/-! ## Claim C9 -/

/-- C9 (confirmed): `addElement` appends exactly one element whose position
is the payload's `x`/`y` when given and the default `200` when absent — the
type-specific default blocks never touch `x` or `y`. -/
theorem C9_default_position (t : ElementType) (p : Payload) (s : AppState) :
    (addElement t p s).elements = s.elements ++ [newElementOf t p s] ∧
    (newElementOf t p s).x = p.x.getD 200 ∧
    (newElementOf t p s).y = p.y.getD 200 := by
  refine ⟨rfl, ?_, ?_⟩ <;>
    · unfold newElementOf baseElement
      split_ifs <;> simp

/-! ## Claim C10 -/

/-- C10 (confirmed): `deleteElement()` with no argument while nothing is
selected resolves no target and is a complete no-op: the whole state —
elements, history, cursor and selection — is returned unchanged. -/
theorem C10_delete_unselected (s : AppState) (h : s.selectedId = none) :
    deleteElement none s = s := by
  unfold deleteElement
  rw [h]
  rfl

/-- C10 witness: the no-argument delete on the post-mount state (which has
no selection). -/
theorem C10_delete_unselected_wit :
    initState.selectedId = none ∧ deleteElement none initState = initState :=
  ⟨rfl, C10_delete_unselected initState rfl⟩
